import Mathlib

/-!
Verification of the JHU COVID-19 data-processing pipeline
(`scripts/src/cowidev/jhu/process.py`).

The pandas `DataFrame` is embedded as a `List Row`, where `Row` carries the
six raw columns plus every derived column of the pipeline (a column that a
stage has not yet produced holds `none` / `0`).  Numeric cell values are
modelled by `Q`, an executable normalized rational type (pandas float cells;
`none` models NaN / pd.NA).  Calendar dates are modelled by `Date` with the
standard civil-calendar day numbering, so day differences are exact.

Each Python function of the source is translated to a Lean definition of the
same name.  Where pandas float arithmetic produces ±inf/NaN the source code
immediately converts those to NA (`replace([inf, -inf], NA)`, NaN cells);
the model therefore represents such cells directly as `none` at the point
noted in each definition's comment.
-/

namespace Jhu

/-! ### Exact rationals with kernel-computable arithmetic

`Q` models a pandas float cell value exactly.  All operations normalize
(sign on the numerator, gcd reduced), so values built by the pipeline from
integer literals are in canonical form and structural equality is value
equality on them.  Division by zero is guarded in every model definition
that can encounter it, mirroring the source's own guards. -/

structure Q where
  num : ℤ
  den : ℕ
deriving DecidableEq, Repr, Inhabited

/-- Normalized rational `n / d` (sign moved to the numerator, gcd reduced).
`d = 0` maps to `0`; all uses in the model are guarded so this case mirrors
a guarded division in the source. -/
def Q.mk' (n d : ℤ) : Q :=
  if d = 0 then ⟨0, 1⟩ else
  let s : ℤ := if d < 0 then -1 else 1
  let n' := s * n
  let d' := (s * d).toNat
  let g := n'.natAbs.gcd d'
  ⟨n' / g, d' / g⟩

def Q.ofInt (n : ℤ) : Q := ⟨n, 1⟩

instance : Add Q := ⟨fun a b => Q.mk' (a.num * b.den + b.num * a.den) (a.den * b.den)⟩
instance : Sub Q := ⟨fun a b => Q.mk' (a.num * b.den - b.num * a.den) (a.den * b.den)⟩
instance : Mul Q := ⟨fun a b => Q.mk' (a.num * b.num) (a.den * b.den)⟩
instance : Div Q := ⟨fun a b => Q.mk' (a.num * b.den) (a.den * b.num)⟩
instance : Neg Q := ⟨fun a => ⟨-a.num, a.den⟩⟩
instance (n : ℕ) : OfNat Q n := ⟨⟨n, 1⟩⟩

/-- Value-level order (denominators are natural numbers, hence nonnegative). -/
instance : LE Q := ⟨fun a b => a.num * b.den ≤ b.num * a.den⟩

instance : LT Q := ⟨fun a b => a.num * b.den < b.num * a.den⟩

instance (a b : Q) : Decidable (a ≤ b) :=
  inferInstanceAs (Decidable (a.num * b.den ≤ b.num * a.den))

instance (a b : Q) : Decidable (a < b) :=
  inferInstanceAs (Decidable (a.num * b.den < b.num * a.den))

/-- Floor of a rational, used by half-even rounding. -/
def Q.floorInt (a : Q) : ℤ := Int.fdiv a.num a.den

/-- Round to the nearest integer, ties to even: the rounding mode of
`numpy.round` / `pandas.Series.round`. -/
def rndHalfEven (x : Q) : ℤ :=
  let f := x.floorInt
  let frac := x - Q.ofInt f
  if frac < (⟨1, 2⟩ : Q) then f
  else if (⟨1, 2⟩ : Q) < frac then f + 1
  else if f % 2 = 0 then f else f + 1

/-- `round(x, decimals)` with `scale = 10 ^ decimals`, half-even as numpy. -/
def roundScaled (scale : ℤ) (x : Q) : Q :=
  Q.ofInt (rndHalfEven (x * Q.ofInt scale)) / Q.ofInt scale

/-- `Series.round(3)` of the source. -/
def round3 (x : Q) : Q := roundScaled 1000 x

/-- `np.round(x, decimals=2)` of the source. -/
def round2 (x : Q) : Q := roundScaled 100 x

/-- Value-level zero test, as the pandas comparison `series == 0`. -/
def Q.isZero (a : Q) : Bool := a.num = 0

/-! ### Calendar dates

Python `datetime` dates, with the standard civil-calendar day number so that
`(a - b).days` is exact. -/

structure Date where
  year : ℤ
  month : ℤ
  day : ℤ
deriving DecidableEq, Repr, Inhabited

/-- Day number of a civil date (days since 1970-01-01, standard
`days_from_civil` algorithm; `Int.fdiv` makes it total on all of ℤ). -/
def Date.toDayNumber (dt : Date) : ℤ :=
  let y := if dt.month ≤ 2 then dt.year - 1 else dt.year
  let era := Int.fdiv y 400
  let yoe := y - era * 400
  let mp := Int.emod (dt.month + 9) 12
  let doy := (153 * mp + 2) / 5 + dt.day - 1
  let doe := yoe * 365 + yoe / 4 - yoe / 100 + doy
  era * 146097 + doe - 719468

/-- `(a - b).days` for two dates. -/
def Date.diffDays (a b : Date) : ℤ := a.toDayNumber - b.toDayNumber

/-- Date comparison (dates compare chronologically). -/
def Date.ble (a b : Date) : Bool := a.toDayNumber ≤ b.toDayNumber

def Date.blt (a b : Date) : Bool := a.toDayNumber < b.toDayNumber

/-! ### String ordering

Python compares `str` by code points; `strLe` is that lexicographic order on
the characters of the two strings. -/

def charListLe : List Char → List Char → Bool
  | [], _ => true
  | _ :: _, [] => false
  | a :: as, b :: bs =>
    if a.val < b.val then true
    else if b.val < a.val then false
    else charListLe as bs

def strLe (a b : String) : Bool := charListLe a.data b.data

/-! ### The table row

One `DataFrame` row.  The six raw columns come first; every later field is a
derived column that some pipeline stage fills in (defaulted before that
stage runs: `none` for nullable float/int columns, `0` for the final
integer flag column, matching a column that does not exist yet). -/

structure Row where
  date : Date
  location : String
  new_cases : Option Q := none
  new_deaths : Option Q := none
  total_cases : Option Q := none
  total_deaths : Option Q := none
  weekly_cases : Option Q := none
  weekly_deaths : Option Q := none
  weekly_pct_growth_cases : Option Q := none
  weekly_pct_growth_deaths : Option Q := none
  biweekly_cases : Option Q := none
  biweekly_deaths : Option Q := none
  biweekly_pct_growth_cases : Option Q := none
  biweekly_pct_growth_deaths : Option Q := none
  doubling_days_total_cases_3_day_period : Option Q := none
  doubling_days_total_cases_7_day_period : Option Q := none
  doubling_days_total_deaths_3_day_period : Option Q := none
  doubling_days_total_deaths_7_day_period : Option Q := none
  new_cases_per_million : Option Q := none
  new_deaths_per_million : Option Q := none
  total_cases_per_million : Option Q := none
  total_deaths_per_million : Option Q := none
  weekly_cases_per_million : Option Q := none
  weekly_deaths_per_million : Option Q := none
  biweekly_cases_per_million : Option Q := none
  biweekly_deaths_per_million : Option Q := none
  new_cases_7_day_avg_right : Option Q := none
  new_deaths_7_day_avg_right : Option Q := none
  new_cases_per_million_7_day_avg_right : Option Q := none
  new_deaths_per_million_7_day_avg_right : Option Q := none
  cfr : Option Q := none
  cfr_100_cases : Option Q := none
  days_since_100_total_cases : Option ℤ := none
  days_since_5_total_deaths : Option ℤ := none
  days_since_1_total_cases_per_million : Option ℤ := none
  days_since_0_1_total_deaths_per_million : Option ℤ := none
  days_since_100_total_cases_and_5m_pop : Option ℤ := none
  pop5m_and_21_days_since_100_cases_and_testing : ℤ := 0
deriving DecidableEq, Repr, Inhabited

/-! ### Generic list machinery -/

/-- `mapIdxFrom f n l` maps `f` over `l` with indices starting at `n`. -/
def mapIdxFrom (f : ℕ → α → β) : ℕ → List α → List β
  | _, [] => []
  | n, a :: l => f n a :: mapIdxFrom f (n + 1) l

/-- Index-aware map; models a pandas column assignment aligned to the
original row order (`groupby(...).\<op\>().reset_index(level=0, drop=True)`). -/
def mapIdxQ (f : ℕ → α → β) (l : List α) : List β := mapIdxFrom f 0 l

/-- Stable insertion into a `le`-sorted list (insert before the first
strictly greater element, after equal ones is not needed: `le` is total so
an equal element keeps the incoming one in front only if `le` says so;
`sortBy` below feeds elements right to left, which makes the sort stable). -/
def insertLe (le : α → α → Bool) (a : α) : List α → List α
  | [] => [a]
  | b :: l => if le a b then a :: b :: l else b :: insertLe le a l

/-- Stable sort by a boolean total preorder (models `sort_values`). -/
def sortBy (le : α → α → Bool) (l : List α) : List α := l.foldr (insertLe le) []

/-- Sum of a list of values. -/
def sumQ (l : List Q) : Q := l.foldr (· + ·) 0

/-- Sum of the non-null entries; pandas `sum()` with default `skipna=True`,
`min_count=0`: an all-null (or empty) collection sums to `0`. -/
def sumOpt (l : List (Option Q)) : Q := sumQ (l.filterMap id)

/-- The ordered series of values of column `f` for the rows of location
`l` — the unit on which every grouped rolling operation works. -/
def locSeries (t : List Row) (l : String) (f : Row → Option Q) : List (Option Q) :=
  (t.filter (fun r => r.location = l)).map f

/-- The position of row `i` inside its location's series (number of earlier
rows of the same location). -/
def locPos (t : List Row) (i : ℕ) (l : String) : ℕ :=
  ((t.take i).filter (fun r => r.location = l)).length

/-- Right-aligned rolling window of width `w` ending at index `k`. -/
def windowAt (w : ℕ) (xs : List (Option Q)) (k : ℕ) : List (Option Q) :=
  (xs.take (k + 1)).drop (k + 1 - w)

/-- `rolling(window=w, min_periods=mp).sum()` at index `k`: the sum of the
non-null values of the window if it holds at least `mp` of them, else null. -/
def rollingSumAt (w mp : ℕ) (xs : List (Option Q)) (k : ℕ) : Option Q :=
  let obs := (windowAt w xs k).filterMap id
  if mp ≤ obs.length then some (sumQ obs) else none

/-- `rolling(window=w, min_periods=mp).mean()` at index `k`. -/
def rollingMeanAt (w mp : ℕ) (xs : List (Option Q)) (k : ℕ) : Option Q :=
  let obs := (windowAt w xs k).filterMap id
  if mp ≤ obs.length then some (sumQ obs / Q.ofInt obs.length) else none

/-- `pct_change(periods=p, fill_method=None)` at index `k` of series `xs`:
`xs[k] / xs[k-p] - 1`.  A missing or null operand gives NaN (null); a zero
baseline gives ±inf (or NaN for 0/0), which the only two call sites of
`pct_change` in the source immediately turn into null (`replace([inf,-inf],
NA)` resp. the `pd.notnull` guard of `pct_change_to_doubling_days` after
`np.round` keeps NaN NaN), so the zero-baseline case is modelled as null
directly. -/
def pctChangeAt (p : ℕ) (xs : List (Option Q)) (k : ℕ) : Option Q :=
  if k < p then none else
  match xs.getD (k - p) none, xs.getD k none with
  | some prev, some cur => if prev.isZero then none else some ((cur - prev) / prev)
  | _, _ => none

/-! ### Static reference data

`load_population`, `load_eu_country_names`, `LOCATIONS_BY_CONTINENT`,
`LOCATIONS_BY_WB_INCOME_GROUP` and `get_testing` are imported by the source
from collaborator modules outside this file; they are read-only reference
inputs, bundled here as a parameter record.  `rlog` stands for `np.log` on
the (strictly positive) arguments the doubling-days stage feeds it. -/

structure RefData where
  population : String → Option Q
  eu_country_names : List String
  locations_by_continent : List (String × List String)
  locations_by_wb_income_group : List (String × List String)
  testing_locations : List String
  rlog : Q → Q

/-! ### Anomaly corrector (`discard_rows`, `hide_recent_zeros`) -/

/-- `LARGE_DATA_CORRECTIONS` of the source: manual `(location, date, metric)`
corrections; the metric string selects the `new_<metric>` column. -/
def LARGE_DATA_CORRECTIONS : List (String × Date × String) :=
  [("Austria", ⟨2022, 4, 21⟩, "deaths"),
   ("Austria", ⟨2022, 4, 22⟩, "deaths"),
   ("Brazil", ⟨2021, 9, 18⟩, "cases"),
   ("Chile", ⟨2020, 7, 17⟩, "deaths"),
   ("Chile", ⟨2022, 3, 21⟩, "deaths"),
   ("China", ⟨2020, 4, 17⟩, "deaths"),
   ("Denmark", ⟨2021, 12, 21⟩, "deaths"),
   ("Ecuador", ⟨2020, 9, 7⟩, "deaths"),
   ("Ecuador", ⟨2021, 7, 20⟩, "deaths"),
   ("Finland", ⟨2022, 3, 7⟩, "deaths"),
   ("Iceland", ⟨2022, 5, 17⟩, "deaths"),
   ("India", ⟨2021, 6, 10⟩, "deaths"),
   ("Mexico", ⟨2020, 10, 5⟩, "deaths"),
   ("Mexico", ⟨2021, 6, 1⟩, "deaths"),
   ("Moldova", ⟨2021, 12, 31⟩, "deaths"),
   ("Norway", ⟨2022, 3, 17⟩, "deaths"),
   ("Oman", ⟨2022, 6, 16⟩, "deaths"),
   ("South Africa", ⟨2021, 11, 23⟩, "cases"),
   ("South Africa", ⟨2022, 1, 6⟩, "deaths"),
   ("Spain", ⟨2020, 6, 19⟩, "deaths"),
   ("Turkey", ⟨2020, 12, 10⟩, "cases"),
   ("United Kingdom", ⟨2022, 1, 31⟩, "cases"),
   ("United Kingdom", ⟨2022, 2, 1⟩, "deaths"),
   ("United Kingdom", ⟨2022, 4, 6⟩, "deaths")]

/-- `df.loc[df.new_cases < 0, "new_cases"] = np.nan` and the same for
deaths (`NaN < 0` is false, so null cells are untouched). -/
def dropNegatives (t : List Row) : List Row :=
  t.map fun r =>
    { r with
      new_cases := match r.new_cases with
        | some v => if v < 0 then none else some v
        | none => none
      new_deaths := match r.new_deaths with
        | some v => if v < 0 then none else some v
        | none => none }

/-- One manual correction entry applied to the whole table
(`df.loc[(df.location == l) & (df.date.astype(str) == d), "new_<m>"] = nan`). -/
def applyCorrection (c : String × Date × String) (t : List Row) : List Row :=
  t.map fun r =>
    if r.location = c.1 ∧ r.date = c.2.1 then
      if c.2.2 = "cases" then { r with new_cases := none }
      else if c.2.2 = "deaths" then { r with new_deaths := none }
      else r
    else r

/-- Maximum of a list of dates (`Series.max()`); `none` on an empty
selection (pandas NaN). -/
def maxDate? (l : List Date) : Option Date :=
  l.foldl (fun acc d => match acc with
    | none => some d
    | some m => if m.blt d then some d else some m) none

/-- The single value of column `f` at date `d` (`df.loc[df.date == d, col]
.item()`; at most one row per date within a location group). -/
def valueAtDate (t : List Row) (d : Date) (f : Row → Option Q) : Option Q :=
  (t.find? (fun r => r.date = d)).bind f

/-- A strictly positive cell, the `series > 0` test of the source (false
on null). -/
def posCell (o : Option Q) : Bool :=
  match o with
  | some v => decide (0 < v)
  | none => false

/-- The `new_cases` half of `hide_recent_zeros`, once the last positive
cases date `lpc` is known: if it is not the last reported date `lrd`, the
value there is at least 100 and the gap is under 7 days, null `new_cases`
strictly after `lpc`. -/
def casesSuppressionStep (lrd lpc : Date) (t : List Row) : List Row :=
  if lpc ≠ lrd then
    match valueAtDate t lpc (fun r => r.new_cases) with
    | some last_known_cases =>
      if 100 ≤ last_known_cases ∧ lrd.diffDays lpc < 7 then
        t.map (fun r => if lpc.blt r.date then { r with new_cases := none } else r)
      else t
    | none => t
  else t

/-- The `new_deaths` half of `hide_recent_zeros` (threshold 10). -/
def deathsSuppressionStep (lrd lpd : Date) (t1 : List Row) : List Row :=
  if lpd ≠ lrd then
    match valueAtDate t1 lpd (fun r => r.new_deaths) with
    | some last_known_deaths =>
      if 10 ≤ last_known_deaths ∧ lrd.diffDays lpd < 7 then
        t1.map (fun r => if lpd.blt r.date then { r with new_deaths := none } else r)
      else t1
    | none => t1
  else t1

/-- `hide_recent_zeros` of the source, applied to one location's group.
Trailing-zero suppression: if the most recent positive `new_cases` value is
at least 100, is not on the group's last reported date, and that last date
is less than 7 days later, every `new_cases` strictly after it becomes
null; then the same for `new_deaths` with bound 10.  Note the source
returns early (skipping the deaths half entirely) when the group has no
positive `new_cases` at all, and the deaths half re-reads the table the
cases half just wrote. -/
def hide_recent_zeros (t : List Row) : List Row :=
  match maxDate? (t.map (fun r => r.date)) with
  | none => t
  | some last_reported_date =>
    match maxDate? ((t.filter (fun r => posCell r.new_cases)).map (fun r => r.date)) with
    | none => t
    | some last_positive_cases_date =>
      let t1 := casesSuppressionStep last_reported_date last_positive_cases_date t
      match maxDate? ((t1.filter (fun r => posCell r.new_deaths)).map (fun r => r.date)) with
      | none => t1
      | some last_positive_deaths_date =>
        deathsSuppressionStep last_reported_date last_positive_deaths_date t1

/-- `sort_values(["location", "date"])`: lexicographic by location string
then date. -/
def sortLocationDate (t : List Row) : List Row :=
  sortBy (fun a b =>
    if a.location = b.location then a.date.ble b.date
    else strLe a.location b.location) t

/-- `sort_values(by="date")` (per-location relative order is by date since
each location has at most one row per date). -/
def sortDate (t : List Row) : List Row :=
  sortBy (fun a b => a.date.ble b.date) t

/-- The grouped trailing-zero pass of `discard_rows`:
`df.sort_values(["location", "date"]).groupby("location")
.apply(hide_recent_zeros)` — groups in sorted location order, each group
date-sorted, results concatenated. -/
def hideRecentZerosGrouped (t : List Row) : List Row :=
  let s := sortLocationDate t
  ((s.map (fun r => r.location)).dedup.map
    (fun l => hide_recent_zeros (s.filter (fun r => r.location = l)))).flatten

/-- `discard_rows` of the source (value semantics; the in-place aspect is
modelled separately by `discard_rows_heap`). -/
def discard_rows (t : List Row) : List Row :=
  hideRecentZerosGrouped
    (LARGE_DATA_CORRECTIONS.foldl (fun acc c => applyCorrection c acc)
      (dropNegatives t))

/-! ### Aggregate synthesizer (`_sum_aggregate`, `inject_owid_aggregates`) -/

/-- One aggregate spec: name, optional include list, optional exclude list.
Python's truthiness (`if include:`) also skips an *empty* list. -/
structure AggSpec where
  name : String
  include? : Option (List String)
  exclude? : Option (List String)

/-- The include/exclude filter of `_sum_aggregate` (`isin` filters;
`if include:` / `if exclude:` are false for both `None` and `[]`). -/
def aggFilter (include? exclude? : Option (List String)) (t : List Row) : List Row :=
  let t1 := match include? with
    | some l => if l.isEmpty then t else t.filter (fun r => r.location ∈ l)
    | none => t
  match exclude? with
  | some l => if l.isEmpty then t1 else t1.filter (fun r => r.location ∉ l)
  | none => t1

/-- Sorted (ascending) list of the distinct dates of a table — the group
keys of `groupby("date")`. -/
def groupDates (t : List Row) : List Date :=
  sortBy Date.ble (t.map (fun r => r.date)).dedup

/-- `_sum_aggregate` of the source: filter, group by date, sum each numeric
column over the group (nulls skipped, an all-null group sums to 0), then
set `location` to the aggregate's name.  At this pipeline stage the table
carries exactly the four raw metric columns. -/
def _sum_aggregate (t : List Row) (name : String)
    (include? exclude? : Option (List String)) : List Row :=
  let t2 := aggFilter include? exclude? t
  (groupDates t2).map fun d =>
    let g := t2.filter (fun r => r.date = d)
    { date := d
      location := name
      new_cases := some (sumOpt (g.map (fun r => r.new_cases)))
      new_deaths := some (sumOpt (g.map (fun r => r.new_deaths)))
      total_cases := some (sumOpt (g.map (fun r => r.total_cases)))
      total_deaths := some (sumOpt (g.map (fun r => r.total_deaths))) }

/-- `aggregates_spec` of the source, in dict insertion order.  The UN
continents and World Bank income groups come from reference data;
`"Asia excl. China"` is the Asia list minus China (a Python set difference,
whose ordering is irrelevant: the list is only used in an `isin` filter). -/
def aggregates_spec (refs : RefData) : List AggSpec :=
  [⟨"World", none, none⟩,
   ⟨"World excl. China", none, some ["China"]⟩,
   ⟨"World excl. China and South Korea", none, some ["China", "South Korea"]⟩,
   ⟨"World excl. China, South Korea, Japan and Singapore", none,
     some ["China", "South Korea", "Japan", "Singapore"]⟩,
   ⟨"European Union", some refs.eu_country_names, none⟩] ++
  refs.locations_by_continent.map (fun p => ⟨p.1, some p.2, none⟩) ++
  [⟨"Asia excl. China",
     some ((((refs.locations_by_continent.find? (fun p => p.1 = "Asia")).map
       Prod.snd).getD []).filter (fun l => l ≠ "China")), none⟩] ++
  refs.locations_by_wb_income_group.map (fun p => ⟨p.1, some p.2, none⟩)

/-- `inject_owid_aggregates`: original rows, then one block of synthetic
rows per spec, in spec order (`pd.concat`'s `sort=True` sorts columns, not
rows). -/
def inject_owid_aggregates (refs : RefData) (t : List Row) : List Row :=
  t ++ ((aggregates_spec refs).map
    (fun s => _sum_aggregate t s.name s.include? s.exclude?)).flatten

/-! ### Weekly & biweekly growth (`_inject_growth`) -/

/-- The rolling-sum series of a column series, window `w`, `min_periods =
w - 1` (the parameters of `_inject_growth`). -/
def rollingSumSeries (w : ℕ) (xs : List (Option Q)) : List (Option Q) :=
  (List.range xs.length).map (rollingSumAt w (w - 1) xs)

/-- The growth column value at position `k`:
`pct_change(periods=w, fill_method=None).round(3).replace([inf, -inf],
NA) * 100` applied to the rolling-sum series (note the source rounds the
raw ratio to 3 decimals *before* scaling by 100). -/
def growthAt (w : ℕ) (xs : List (Option Q)) (k : ℕ) : Option Q :=
  (pctChangeAt w (rollingSumSeries w xs) k).map (fun q => round3 q * 100)

/-- `_inject_growth(df, prefix, periods)`: the four computed cell values
(rolling case/death sums, case/death growth) for the row at index `i`.
After the two column assignments the source forces the rolling-sum cells
(not the growth cells) to null wherever the underlying daily value is null
(`df.loc[df.new_cases.isnull(), cases_colname] = np.nan`). -/
def growthCells (w : ℕ) (t : List Row) (i : ℕ) (r : Row) :
    (Option Q × Option Q) × (Option Q × Option Q) :=
  let cs := locSeries t r.location (fun x => x.new_cases)
  let ds := locSeries t r.location (fun x => x.new_deaths)
  let k := locPos t i r.location
  ((if r.new_cases = none then none else (rollingSumSeries w cs).getD k none,
    if r.new_deaths = none then none else (rollingSumSeries w ds).getD k none),
   (growthAt w cs k, growthAt w ds k))

/-- `inject_weekly_growth` (`_inject_growth` with `prefix="weekly"`,
`periods=7`). -/
def inject_weekly_growth (t : List Row) : List Row :=
  mapIdxQ (fun i r =>
    let c := growthCells 7 t i r
    { r with
      weekly_cases := c.1.1
      weekly_deaths := c.1.2
      weekly_pct_growth_cases := c.2.1
      weekly_pct_growth_deaths := c.2.2 }) t

/-- `inject_biweekly_growth` (`_inject_growth` with `prefix="biweekly"`,
`periods=14`). -/
def inject_biweekly_growth (t : List Row) : List Row :=
  mapIdxQ (fun i r =>
    let c := growthCells 14 t i r
    { r with
      biweekly_cases := c.1.1
      biweekly_deaths := c.1.2
      biweekly_pct_growth_cases := c.2.1
      biweekly_pct_growth_deaths := c.2.2 }) t

/-! ### Doubling days (`pct_change_to_doubling_days`, `inject_doubling_days`) -/

/-- `pct_change_to_doubling_days` of the source: null (pd.NA) unless the
percent change is non-null and non-zero, else
`np.round(periods * np.log(2) / np.log(1 + pct_change), 2)`.  `rlog`
models `np.log`; the pipeline only reaches it with `1 + pct_change > 0`
(the source column is a running total whose zeros were just nulled), where
`np.log` is an ordinary real function. -/
def pct_change_to_doubling_days (rlog : Q → Q) (pct_change : Option Q)
    (periods : Q) : Option Q :=
  match pct_change with
  | some p => if ¬ p.isZero then some (round2 (periods * rlog 2 / rlog (1 + p))) else none
  | none => none

/-- One `doubling_days_spec` entry applied to the table: first
`df.loc[df[value_col] == 0, value_col] = np.nan` (an in-table write to the
source column), then the per-location `pct_change(periods, fill_method=
None)` of the *updated* column, mapped through
`pct_change_to_doubling_days`. -/
def injectDoublingCol (rlog : Q → Q) (periods : ℕ)
    (get : Row → Option Q) (zero : Row → Row) (setCol : Row → Option Q → Row)
    (t : List Row) : List Row :=
  let t1 := t.map zero
  mapIdxQ (fun i r =>
    setCol r (pct_change_to_doubling_days rlog
      (pctChangeAt periods (locSeries t1 r.location get) (locPos t1 i r.location))
      (Q.ofInt periods))) t1

/-- Null out a cell holding the value zero (`df.loc[df[col] == 0, col] =
np.nan` at a single cell). -/
def nullIfZero (o : Option Q) : Option Q :=
  match o with
  | some v => if v.isZero then none else some v
  | none => none

/-- `df.loc[df.total_cases == 0, "total_cases"] = np.nan`. -/
def zeroTotalCases (r : Row) : Row := { r with total_cases := nullIfZero r.total_cases }

/-- `df.loc[df.total_deaths == 0, "total_deaths"] = np.nan`. -/
def zeroTotalDeaths (r : Row) : Row := { r with total_deaths := nullIfZero r.total_deaths }

/-- `inject_doubling_days`: the four `doubling_days_spec` entries in dict
order (cases 3, cases 7, deaths 3, deaths 7), each zeroing pass writing
into the shared table before the next entry runs. -/
def inject_doubling_days (rlog : Q → Q) (t : List Row) : List Row :=
  injectDoublingCol rlog 7 (fun r => r.total_deaths) zeroTotalDeaths
    (fun r v => { r with doubling_days_total_deaths_7_day_period := v })
    (injectDoublingCol rlog 3 (fun r => r.total_deaths) zeroTotalDeaths
      (fun r v => { r with doubling_days_total_deaths_3_day_period := v })
      (injectDoublingCol rlog 7 (fun r => r.total_cases) zeroTotalCases
        (fun r v => { r with doubling_days_total_cases_7_day_period := v })
        (injectDoublingCol rlog 3 (fun r => r.total_cases) zeroTotalCases
          (fun r v => { r with doubling_days_total_cases_3_day_period := v }) t)))

/-! ### Per-million normalizer (`inject_per_million`) -/

/-- `metric / (population / 1e6)`, rounded to 3 decimals; a null metric or
an unmatched location (null population) gives null.  The reference
population is never zero, so the division is well defined. -/
def perMillion (pop : Option Q) (v : Option Q) : Option Q :=
  match pop, v with
  | some p, some x => some (round3 (x / (p / 1000000)))
  | _, _ => none

/-- `inject_per_million` as invoked by `standardize_data`: population is
left-joined by location and dropped again, and the eight base measures get
`_per_million` counterparts. -/
def inject_per_million (pop : String → Option Q) (t : List Row) : List Row :=
  t.map fun r =>
    let p := pop r.location
    { r with
      new_cases_per_million := perMillion p r.new_cases
      new_deaths_per_million := perMillion p r.new_deaths
      total_cases_per_million := perMillion p r.total_cases
      total_deaths_per_million := perMillion p r.total_deaths
      weekly_cases_per_million := perMillion p r.weekly_cases
      weekly_deaths_per_million := perMillion p r.weekly_deaths
      biweekly_cases_per_million := perMillion p r.biweekly_cases
      biweekly_deaths_per_million := perMillion p r.biweekly_deaths }

/-! ### Rolling 7-day averages (`inject_rolling_avg`) -/

/-- The rolling-average cell for one spec: window 7, `min_periods` 6,
right-aligned mean, rounded to 3 decimals. -/
def rollAvgCell (t : List Row) (i : ℕ) (r : Row) (get : Row → Option Q) : Option Q :=
  (rollingMeanAt 7 6 (locSeries t r.location get) (locPos t i r.location)).map round3

/-- `inject_rolling_avg`: the table is first sorted by date
(`df.copy().sort_values(by="date")`), then each of the four
`rolling_avg_spec` columns is a per-location rolling mean.  The stage
returns the date-sorted table. -/
def inject_rolling_avg (t : List Row) : List Row :=
  let s := sortDate t
  mapIdxQ (fun i r =>
    { r with
      new_cases_7_day_avg_right := rollAvgCell s i r (fun x => x.new_cases)
      new_deaths_7_day_avg_right := rollAvgCell s i r (fun x => x.new_deaths)
      new_cases_per_million_7_day_avg_right :=
        rollAvgCell s i r (fun x => x.new_cases_per_million)
      new_deaths_per_million_7_day_avg_right :=
        rollAvgCell s i r (fun x => x.new_deaths_per_million) }) s

/-! ### Case fatality ratio (`inject_cfr`) -/

/-- `cfr = round(total_deaths / total_cases * 100, 3)` per row; a null
operand gives null, and a zero `total_cases` cannot reach this stage (its
zeros were nulled by `inject_doubling_days`), so the division is guarded. -/
def cfrCell (r : Row) : Option Q :=
  match r.total_deaths, r.total_cases with
  | some d, some c => if c.isZero then none else some (round3 (d / c * 100))
  | _, _ => none

/-- `_apply_row_cfr_100`: the cfr value only where `total_cases >= 100`. -/
def _apply_row_cfr_100 (r : Row) : Option Q :=
  match r.total_cases with
  | some c => if 100 ≤ c then r.cfr else none
  | none => none

/-- `inject_cfr` (the `cfr_100_cases` column reads the `cfr` column the
same stage just wrote). -/
def inject_cfr (t : List Row) : List Row :=
  t.map fun r =>
    let r1 := { r with cfr := cfrCell r }
    { r1 with cfr_100_cases := _apply_row_cfr_100 r1 }

/-! ### Days-since-threshold (`_days_since`, `inject_days_since`) -/

/-- A cell meeting the `df[col] >= threshold` test of
`_get_date_of_threshold` (false on null). -/
def thrMet (threshold : Q) (o : Option Q) : Bool :=
  match o with
  | some v => decide (threshold ≤ v)
  | none => false

/-- `_get_date_of_threshold`: the date of the first row (in group order) of
the location group whose value meets the threshold, `None` if no row does
(`NaN >= threshold` is false). -/
def _get_date_of_threshold (g : List (Date × Option Q)) (threshold : Q) : Option Date :=
  (g.find? (fun x => thrMet threshold x.2)).map (fun x => x.1)

/-- `_date_diff`: day difference to the reference date, nulled for negative
differences when `positive_only`. -/
def _date_diff (a b : Date) (positive_only : Bool) : Option ℤ :=
  let diff := a.diffDays b
  if positive_only ∧ diff < 0 then none else some diff

/-- `_days_since` applied to one location group (as `(date, value)` pairs):
each row's day difference to the threshold date, or null everywhere if no
row ever meets the threshold. -/
def _days_since (g : List (Date × Option Q)) (threshold : Q)
    (positive_only : Bool) : List (Option ℤ) :=
  match _get_date_of_threshold g threshold with
  | none => g.map (fun _ => none)
  | some ref => g.map (fun x => _date_diff x.1 ref positive_only)

/-- One `days_since_spec` column injected group by group, values aligned to
the rows' positions inside their location group. -/
def injectDaysSinceCol (get : Row → Option Q) (threshold : Q)
    (positive_only : Bool) (setCol : Row → Option ℤ → Row) (t : List Row) : List Row :=
  mapIdxQ (fun i r =>
    setCol r ((_days_since
        ((t.filter (fun x => x.location = r.location)).map (fun x => (x.date, get x)))
        threshold positive_only).getD
      (locPos t i r.location) none)) t

/-- `inject_days_since`: the four `days_since_spec` columns (thresholds
100, 5, 1, 0.1; none of the four sets `positive_only`). -/
def inject_days_since (t : List Row) : List Row :=
  injectDaysSinceCol (fun r => r.total_deaths_per_million) (⟨1, 10⟩ : Q) false
    (fun r v => { r with days_since_0_1_total_deaths_per_million := v })
    (injectDaysSinceCol (fun r => r.total_cases_per_million) 1 false
      (fun r v => { r with days_since_1_total_cases_per_million := v })
      (injectDaysSinceCol (fun r => r.total_deaths) 5 false
        (fun r v => { r with days_since_5_total_deaths := v })
        (injectDaysSinceCol (fun r => r.total_cases) 100 false
          (fun r v => { r with days_since_100_total_cases := v }) t)))

/-! ### Exemplar flags (`inject_exemplars`) -/

/-- `inject_exemplars`: re-joins population; `days_since_100_total_cases`
carried over only when population ≥ 5e6; the 0/1 flag is 1 iff the
days-since value is non-null and ≥ 21, population is non-null and ≥ 5e6,
and the location has testing data. -/
def inject_exemplars (refs : RefData) (t : List Row) : List Row :=
  t.map fun r =>
    let p := refs.population r.location
    { r with
      days_since_100_total_cases_and_5m_pop :=
        match p with
        | some pv => if 5000000 ≤ pv then r.days_since_100_total_cases else none
        | none => none
      pop5m_and_21_days_since_100_cases_and_testing :=
        match r.days_since_100_total_cases, p with
        | some ds, some pv =>
          if 21 ≤ ds ∧ 5000000 ≤ pv ∧ r.location ∈ refs.testing_locations then 1 else 0
        | _, _ => 0 }

/-! ### The full pipeline (`standardize_data`) -/

/-- The `df[["date", "location", "new_cases", "new_deaths", "total_cases",
"total_deaths"]]` column selection opening `standardize_data`: value-wise
it restricts the table to the six raw columns (and, in pandas, copies; the
copy semantics is modelled by `standardize_data_heap`). -/
def select_raw_columns (t : List Row) : List Row :=
  t.map fun r =>
    { date := r.date
      location := r.location
      new_cases := r.new_cases
      new_deaths := r.new_deaths
      total_cases := r.total_cases
      total_deaths := r.total_deaths }

/-- The pipeline stages downstream of `discard_rows`, in the `.pipe` order
of `standardize_data`, ending with `sort_values(["location", "date"])`. -/
def postDiscardPipeline (refs : RefData) (t : List Row) : List Row :=
  sortLocationDate
    (inject_exemplars refs
      (inject_days_since
        (inject_cfr
          (inject_rolling_avg
            (inject_per_million refs.population
              (inject_doubling_days refs.rlog
                (inject_biweekly_growth
                  (inject_weekly_growth
                    (inject_owid_aggregates refs t)))))))))

/-- `standardize_data` of the source, as a function of the input snapshot
and the static reference data. -/
def standardize_data (refs : RefData) (df : List Row) : List Row :=
  postDiscardPipeline refs (discard_rows (select_raw_columns df))

/-! ### Object identity (heap) model for the in-place effects

Pandas statements of the form `df.loc[mask, col] = value` write into the
DataFrame object they are applied to, while column selection with a list
(`df[[...]]`) and the frame-producing operations (`groupby().apply`,
`concat`, `merge`, ...) build new objects.  A `Heap` of tables with
references as indices makes that visible: `discard_rows` receives a
reference and performs its two `.loc` write passes through it before
rebinding `df` to the new grouped frame; `standardize_data` hands
`discard_rows` a reference to the fresh column-selection copy, never to the
caller's object. -/

abbrev Heap := List (List Row)

def readRef (h : Heap) (r : ℕ) : List Row := (h.get? r).getD []

def writeRef (h : Heap) (r : ℕ) (t : List Row) : Heap := h.set r t

def allocRef (h : Heap) (t : List Row) : Heap × ℕ := (h ++ [t], h.length)

/-- `discard_rows` with object identity: the negative-delta pass and the
manual-correction pass are in-place writes to the argument object; the
final grouped `hide_recent_zeros` pass rebinds `df` to a fresh frame, which
is returned. -/
def discard_rows_heap (h : Heap) (r : ℕ) : Heap × ℕ :=
  let h1 := writeRef h r (dropNegatives (readRef h r))
  let h2 := writeRef h1 r
    (LARGE_DATA_CORRECTIONS.foldl (fun acc c => applyCorrection c acc) (readRef h1 r))
  allocRef h2 (hideRecentZerosGrouped (readRef h2 r))

/-- `standardize_data` with object identity: the opening `df[[...]]`
column selection allocates a copy, `discard_rows` mutates only that copy,
and every later stage consumes freshly built frames. -/
def standardize_data_heap (refs : RefData) (h : Heap) (r : ℕ) : Heap × ℕ :=
  let a := allocRef h (select_raw_columns (readRef h r))
  let b := discard_rows_heap a.1 a.2
  allocRef b.1 (postDiscardPipeline refs (readRef b.1 b.2))

/-! ### Export formatter (`standard_export`), pivot part -/

/-- Sorted distinct locations: the column index that
`df.pivot(index="date", columns="location", values=col)` produces. -/
def pivotLocations (t : List Row) : List String :=
  sortBy strLe (t.map (fun r => r.location)).dedup

/-- The `cols.insert(0, cols.pop(cols.index("World")))` reordering of
`standard_export`: move the World column to the front; `list.index` raises
`ValueError` when World is absent, aborting the export with no pivot
output — modelled as `none`. -/
def worldFirstColumns (t : List Row) : Option (List String) :=
  let cols := pivotLocations t
  if "World" ∈ cols then some ("World" :: cols.erase "World") else none

/-! ### Claim-side (specification) definitions

These follow the *specification's wording* (not the code), for refinement
comparisons. -/

/-- The claim's reading of the growth column: percentage change of the
rolling-sum series versus its value `w` positions earlier, *multiplied by
100 and then rounded to 3 decimals* (±infinity replaced by null). -/
def specGrowthValue (w : ℕ) (xs : List (Option Q)) (k : ℕ) : Option Q :=
  (pctChangeAt w (rollingSumSeries w xs) k).map (fun q => round3 (q * 100))

/-- The amended reading: the raw pct-change ratio is rounded to 3 decimals
*first* and only then multiplied by 100 (the percentage therefore has one
decimal place); null when either rolling sum is missing/null or the
baseline is zero (±infinity replaced by null). -/
def amendedGrowthValue (w : ℕ) (xs : List (Option Q)) (k : ℕ) : Option Q :=
  (pctChangeAt w (rollingSumSeries w xs) k).map (fun q => round3 q * 100)

/-- A row whose `total_cases` and `total_deaths` cells never hold the value
zero (they may be null). -/
def ZeroFreeTotals (r : Row) : Prop :=
  (∀ v, r.total_cases = some v → v.isZero = false) ∧
  (∀ v, r.total_deaths = some v → v.isZero = false)

/-! ### Concrete instances used by witnesses and counterexamples -/

/-- A date in January 2020. -/
def jan (d : ℤ) : Date := ⟨2020, 1, d⟩

/-- A raw input row (only the six source columns populated). -/
def rawRow (d : Date) (l : String) (nc nd tc td : Option Q) : Row :=
  { date := d, location := l, new_cases := nc, new_deaths := nd,
    total_cases := tc, total_deaths := td }

/-- Concrete reference data for witness evaluations: every location has
population 5e6 and testing data; no continent/income-group/EU lists;
`rlog` instantiated with an arbitrary concrete function (the identity). -/
def trivRefs : RefData :=
  { population := fun _ => some 5000000
    eu_country_names := []
    locations_by_continent := []
    locations_by_wb_income_group := []
    testing_locations := ["A"]
    rlog := fun q => q }

/-- A single-location series whose week-over-week rolling-sum ratio is
exactly 0.1234 at index 12 (rolling sums 10000 at index 5 and 11234 at
index 12). -/
def exC1 : List Row :=
  (List.range 13).map fun i =>
    rawRow (jan (1 + (i : ℤ))) "A"
      (some (if i = 0 then 10000 else if i = 6 then 11234 else 0))
      (some 0) none none

/-- A small raw table: two locations, two days. -/
def exC2 : List Row :=
  [rawRow (jan 1) "A" (some 1) (some 0) (some 1) (some 0),
   rawRow (jan 2) "A" (some 2) (some 1) (some 3) (some 1),
   rawRow (jan 1) "B" (some 4) (some 0) (some 4) (some 0)]

/-- Four days of one location: `new_cases` never positive, `new_deaths`
positive (20 ≥ 10) last on day 2 with two trailing zero days — the deaths
suppression premises all hold, but cases have no positive value at all. -/
def exC3 : List Row :=
  [rawRow (jan 1) "A" (some 0) (some 20) none none,
   rawRow (jan 2) "A" (some 0) (some 20) none none,
   rawRow (jan 3) "A" (some 0) (some 0) none none,
   rawRow (jan 4) "A" (some 0) (some 0) none none]

/-- Same deaths series as `exC3` but with positive `new_cases` everywhere
(the cases rule then does not fire: the last positive cases date is the
last reported date). -/
def exC3b : List Row :=
  [rawRow (jan 1) "A" (some 5) (some 20) none none,
   rawRow (jan 2) "A" (some 5) (some 20) none none,
   rawRow (jan 3) "A" (some 5) (some 0) none none,
   rawRow (jan 4) "A" (some 5) (some 0) none none]

/-- Cases suppression premises hold (200 ≥ 100, one trailing zero day),
deaths never positive. -/
def exC3c : List Row :=
  [rawRow (jan 1) "A" (some 200) (some 0) none none,
   rawRow (jan 2) "A" (some 200) (some 0) none none,
   rawRow (jan 3) "A" (some 0) (some 0) none none,
   rawRow (jan 4) "A" (some 0) (some 0) none none]

/-- Eight days of one location, `new_cases` null on the last day only: its
7-day window still holds 6 non-null values, enough for `min_periods = 6`. -/
def exC4 : List Row :=
  (List.range 8).map fun i =>
    rawRow (jan (1 + (i : ℤ))) "A"
      (if i = 7 then none else some 1) (some 1) none none

/-- The row of index 7 of the weekly-growth output over `exC4`. -/
def rowC4 : Row := (inject_weekly_growth exC4).getD 7 default

/-- The row of index 7 of the biweekly-growth output over `exC4`. -/
def rowC4b : Row := (inject_biweekly_growth exC4).getD 7 default

/-- A three-row location group, date-sorted, first crossing the threshold
100 on its second date. -/
def gC6 : List (Date × Option Q) :=
  [(jan 1, some 50), (jan 2, some 150), (jan 3, some 200)]

/-- A group that never meets the threshold 100. -/
def gC6b : List (Date × Option Q) :=
  [(jan 1, some 50), (jan 2, none), (jan 3, some 99)]

/-- Locations out of order and a World row present. -/
def exC7 : List Row :=
  [rawRow (jan 1) "B" (some 1) none none none,
   rawRow (jan 1) "World" (some 3) none none none,
   rawRow (jan 2) "A" (some 2) none none none]

/-- No World row. -/
def exC7b : List Row :=
  [rawRow (jan 1) "B" (some 1) none none none,
   rawRow (jan 1) "A" (some 2) none none none]

/-- A raw table containing a `total_cases = 0` and a `total_deaths = 0`
cell. -/
def exC8 : List Row :=
  [rawRow (jan 1) "A" (some 1) (some 1) (some 0) (some 0),
   rawRow (jan 2) "A" (some 1) (some 1) (some 1) (some 1)]

/-- The first row of the full pipeline output over `exC8`. -/
def rowC8 : Row := (standardize_data trivRefs exC8).headD default

/-- A raw table with a negative daily delta (the caller-visible change the
claim predicts). -/
def exC9 : List Row :=
  [rawRow (jan 1) "A" (some 1) (some 0) (some 1) (some 0),
   rawRow (jan 2) "A" (some (-5)) (some 0) (some 1) (some 0)]

/-- Two locations on one date, `new_cases` null for both, `new_deaths`
present. -/
def exC10 : List Row :=
  [rawRow (jan 1) "A" none (some 3) (some 7) none,
   rawRow (jan 1) "B" none (some 4) (some 8) none]

/-! ## General lemmas about the list machinery -/

theorem get?_mapIdxFrom (f : ℕ → α → β) (n : ℕ) (l : List α) (i : ℕ) :
    (mapIdxFrom f n l).get? i = (l.get? i).map (f (n + i)) := by
  induction l generalizing n i with
  | nil => simp [mapIdxFrom]
  | cons a l ih =>
    cases i with
    | zero => simp [mapIdxFrom]
    | succ j =>
      have h := ih (n + 1) j
      have e : n + 1 + j = n + (j + 1) := by omega
      rw [e] at h
      exact h

theorem get?_listMap (f : α → β) (l : List α) (i : ℕ) :
    (l.map f).get? i = (l.get? i).map f := by
  induction l generalizing i with
  | nil => simp
  | cons a l ih =>
    cases i with
    | zero => rfl
    | succ j => exact ih j

theorem get?_mapIdxQ (f : ℕ → α → β) (l : List α) (i : ℕ) :
    (mapIdxQ f l).get? i = (l.get? i).map (f i) := by
  rw [mapIdxQ, get?_mapIdxFrom, Nat.zero_add]

theorem mem_mapIdxQ {f : ℕ → α → β} {l : List α} {b : β} (h : b ∈ mapIdxQ f l) :
    ∃ i a, l.get? i = some a ∧ b = f i a := by
  obtain ⟨i, hi⟩ := List.mem_iff_get?.mp h
  rw [get?_mapIdxQ] at hi
  cases ha : l.get? i with
  | none => rw [ha] at hi; simp at hi
  | some a =>
    rw [ha] at hi
    exact ⟨i, a, ha, by simpa using hi.symm⟩

theorem mem_insertLe (le : α → α → Bool) (a b : α) (l : List α) :
    b ∈ insertLe le a l ↔ b = a ∨ b ∈ l := by
  induction l with
  | nil => simp [insertLe]
  | cons c l ih =>
    by_cases h : le a c
    · simp [insertLe, h]
    · simp [insertLe, h, ih]
      tauto

theorem mem_sortBy (le : α → α → Bool) (b : α) (l : List α) :
    b ∈ sortBy le l ↔ b ∈ l := by
  induction l with
  | nil => simp [sortBy]
  | cons a l ih =>
    have : sortBy le (a :: l) = insertLe le a (sortBy le l) := rfl
    rw [this, mem_insertLe, ih]
    simp

theorem nodup_insertLe (le : α → α → Bool) {a : α} {l : List α}
    (ha : a ∉ l) (hl : l.Nodup) : (insertLe le a l).Nodup := by
  induction l with
  | nil => simp [insertLe]
  | cons c l ih =>
    rw [List.nodup_cons] at hl
    by_cases h : le a c
    · rw [insertLe, if_pos h]
      refine List.nodup_cons.mpr ⟨?_, List.nodup_cons.mpr hl⟩
      simpa using ha
    · rw [insertLe, if_neg h]
      refine List.nodup_cons.mpr ⟨?_, ih (by simp at ha; exact fun hm => ha.2 hm) hl.2⟩
      rw [mem_insertLe]
      rintro (rfl | hm)
      · exact ha (by simp)
      · exact hl.1 hm

theorem nodup_sortBy (le : α → α → Bool) {l : List α} (hl : l.Nodup) :
    (sortBy le l).Nodup := by
  induction l with
  | nil => simp [sortBy]
  | cons a l ih =>
    rw [List.nodup_cons] at hl
    have : sortBy le (a :: l) = insertLe le a (sortBy le l) := rfl
    rw [this]
    exact nodup_insertLe le (fun hm => hl.1 ((mem_sortBy le a l).mp hm)) (ih hl.2)

theorem sumOpt_all_none {l : List (Option Q)} (h : ∀ o ∈ l, o = none) :
    sumOpt l = 0 := by
  induction l with
  | nil => rfl
  | cons o l ih =>
    have ho : o = none := h o (by simp)
    subst ho
    have := ih (fun o hm => h o (by simp [hm]))
    simpa [sumOpt, List.filterMap] using this

theorem nullIfZero_some {o : Option Q} {v : Q} (h : nullIfZero o = some v) :
    v.isZero = false := by
  cases o with
  | none => simp [nullIfZero] at h
  | some w =>
    cases hw : w.isZero with
    | true => simp [nullIfZero, hw] at h
    | false =>
      simp [nullIfZero, hw] at h
      subst h
      exact hw

theorem nullIfZero_idem (o : Option Q) : nullIfZero (nullIfZero o) = nullIfZero o := by
  cases o with
  | none => rfl
  | some v =>
    by_cases hv : v.isZero <;> simp [nullIfZero, hv]

theorem get?_set_self {l : List α} {i : ℕ} (a : α) (h : i < l.length) :
    (l.set i a).get? i = some a := by
  induction l generalizing i with
  | nil => simp at h
  | cons c l ih =>
    cases i with
    | zero => rfl
    | succ j => exact ih (by simpa using h)

theorem get?_set_ne {l : List α} {i j : ℕ} (a : α) (h : i ≠ j) :
    (l.set i a).get? j = l.get? j := by
  induction l generalizing i j with
  | nil => simp
  | cons c l ih =>
    cases i with
    | zero => cases j with
      | zero => exact absurd rfl h
      | succ _ => rfl
    | succ i' => cases j with
      | zero => rfl
      | succ j' => exact ih (fun hc => h (by rw [hc]))

theorem get?_append_lt {l₁ l₂ : List α} {i : ℕ} (h : i < l₁.length) :
    (l₁ ++ l₂).get? i = l₁.get? i := by
  induction l₁ generalizing i with
  | nil => simp at h
  | cons c l ih =>
    cases i with
    | zero => rfl
    | succ j => exact ih (by simpa using h)

/-- In a date-sorted group, the positionally first row satisfying `p` has
the minimal date among all rows satisfying `p`. -/
theorem find?_first_date_min {g : List (Date × Option Q)} {p : Date × Option Q → Bool}
    {x0 : Date × Option Q}
    (hs : List.Pairwise (fun a b : Date × Option Q => a.1.toDayNumber ≤ b.1.toDayNumber) g)
    (hf : g.find? p = some x0) :
    ∀ x ∈ g, p x = true → x0.1.toDayNumber ≤ x.1.toDayNumber := by
  induction g with
  | nil => simp at hf
  | cons y tl ih =>
    rw [List.pairwise_cons] at hs
    by_cases hy : p y
    · rw [List.find?_cons_of_pos tl hy] at hf
      injection hf with hf
      subst hf
      intro x hx hpx
      rcases List.mem_cons.mp hx with rfl | hx'
      · exact le_refl _
      · exact hs.1 x hx'
    · rw [List.find?_cons_of_neg tl hy] at hf
      intro x hx hpx
      rcases List.mem_cons.mp hx with rfl | hx'
      · exact absurd hpx hy
      · exact ih hs.2 hf x hx' hpx

/-- The cases-suppression write (`df.loc[df.date > d, "new_cases"] = nan`)
leaves the `new_deaths` column untouched. -/
theorem deaths_col_casesNulling (t : List Row) (d : Date) :
    ((t.map (fun r =>
        if d.blt r.date then { r with new_cases := none } else r)).map
      (fun r => r.new_deaths)) = t.map (fun r => r.new_deaths) := by
  induction t with
  | nil => rfl
  | cons a t ih =>
    by_cases h : d.blt a.date <;> simp [h, ih]

/-- The `new_deaths`-positivity filter is unchanged by the
cases-suppression write. -/
theorem posDeaths_casesNulling (t : List Row) (d : Date)
    (h : ∀ r ∈ t, posCell r.new_deaths = false) :
    ∀ r ∈ t.map (fun r =>
        if d.blt r.date then { r with new_cases := none } else r),
      posCell r.new_deaths = false := by
  intro r hr
  obtain ⟨r₀, hr₀, rfl⟩ := List.mem_map.mp hr
  by_cases hd : d.blt r₀.date <;> simp [hd, h r₀ hr₀]

/-- The whole cases half leaves the `new_deaths` column untouched. -/
theorem deaths_col_casesStep (lrd lpc : Date) (t : List Row) :
    (casesSuppressionStep lrd lpc t).map (fun r => r.new_deaths) =
      t.map (fun r => r.new_deaths) := by
  unfold casesSuppressionStep
  split
  · split
    · split
      · exact deaths_col_casesNulling t lpc
      · rfl
    · rfl
  · rfl

/-- The cases half preserves the absence of positive `new_deaths` cells. -/
theorem posDeaths_casesStep (lrd lpc : Date) (t : List Row)
    (h : ∀ r ∈ t, posCell r.new_deaths = false) :
    ∀ r ∈ casesSuppressionStep lrd lpc t, posCell r.new_deaths = false := by
  unfold casesSuppressionStep
  split
  · split
    · split
      · exact posDeaths_casesNulling t lpc h
      · exact h
    · exact h
  · exact h

/-- Pointwise effect of `inject_doubling_days` on the two source columns:
each run of the stage replaces value-zero totals by null (and touches no
other raw column). -/
theorem doubling_totals (rlog : Q → Q) (t : List Row) (i : ℕ) {r r₁ : Row}
    (hr : t.get? i = some r)
    (hr₁ : (inject_doubling_days rlog t).get? i = some r₁) :
    r₁.total_cases = nullIfZero r.total_cases ∧
    r₁.total_deaths = nullIfZero r.total_deaths ∧
    r₁.date = r.date ∧ r₁.location = r.location := by
  simp only [inject_doubling_days, injectDoublingCol, get?_mapIdxQ, get?_listMap,
    hr, Option.map_some'] at hr₁
  injection hr₁ with h
  subst h
  refine ⟨?_, ?_, rfl, rfl⟩
  · simp [zeroTotalCases, zeroTotalDeaths, nullIfZero_idem]
  · simp [zeroTotalCases, zeroTotalDeaths, nullIfZero_idem]

/-- Every row coming out of `inject_doubling_days` has zero-free totals. -/
theorem zf_inject_doubling_days (rlog : Q → Q) (t : List Row) :
    ∀ r ∈ inject_doubling_days rlog t, ZeroFreeTotals r := by
  intro r hm
  obtain ⟨i, hi⟩ := List.mem_iff_get?.mp hm
  have h4 := hi
  simp only [inject_doubling_days, injectDoublingCol, get?_mapIdxQ, get?_listMap] at h4
  cases ht : t.get? i with
  | none => rw [ht] at h4; simp at h4
  | some r₀ =>
    obtain ⟨hc, hd, -, -⟩ := doubling_totals rlog t i ht hi
    exact ⟨fun v hv => nullIfZero_some (hc ▸ hv), fun v hv => nullIfZero_some (hd ▸ hv)⟩

/-- Zero-free totals survive a row-wise map that preserves the two total
columns. -/
theorem zf_mem_map {f : Row → Row}
    (hf : ∀ r, (f r).total_cases = r.total_cases ∧ (f r).total_deaths = r.total_deaths)
    {t : List Row} (h : ∀ r ∈ t, ZeroFreeTotals r) :
    ∀ r ∈ t.map f, ZeroFreeTotals r := by
  intro r hm
  obtain ⟨r₀, hr₀, rfl⟩ := List.mem_map.mp hm
  obtain ⟨h₁, h₂⟩ := h r₀ hr₀
  exact ⟨fun v hv => h₁ v ((hf r₀).1 ▸ hv), fun v hv => h₂ v ((hf r₀).2 ▸ hv)⟩

/-- Zero-free totals survive an index-aware map that preserves the two
total columns. -/
theorem zf_mem_mapIdxQ {f : ℕ → Row → Row}
    (hf : ∀ i r, (f i r).total_cases = r.total_cases ∧ (f i r).total_deaths = r.total_deaths)
    {t : List Row} (h : ∀ r ∈ t, ZeroFreeTotals r) :
    ∀ r ∈ mapIdxQ f t, ZeroFreeTotals r := by
  intro r hm
  obtain ⟨i, r₀, hr₀, rfl⟩ := mem_mapIdxQ hm
  have hm₀ : r₀ ∈ t := List.mem_iff_get?.mpr ⟨i, hr₀⟩
  obtain ⟨h₁, h₂⟩ := h r₀ hm₀
  exact ⟨fun v hv => h₁ v ((hf i r₀).1 ▸ hv), fun v hv => h₂ v ((hf i r₀).2 ▸ hv)⟩

/-- Zero-free totals survive sorting. -/
theorem zf_mem_sortBy (le : Row → Row → Bool) {t : List Row}
    (h : ∀ r ∈ t, ZeroFreeTotals r) :
    ∀ r ∈ sortBy le t, ZeroFreeTotals r :=
  fun r hm => h r ((mem_sortBy le r t).mp hm)

/-! Heap access lemmas. -/

theorem readRef_writeRef_self {h : Heap} {r : ℕ} (t : List Row) (hr : r < h.length) :
    readRef (writeRef h r t) r = t := by
  unfold readRef writeRef
  rw [get?_set_self t hr]
  rfl

theorem readRef_writeRef_ne {h : Heap} {r r' : ℕ} (t : List Row) (hne : r' ≠ r) :
    readRef (writeRef h r' t) r = readRef h r := by
  unfold readRef writeRef
  rw [get?_set_ne t hne]

theorem readRef_append_lt {h : Heap} {r : ℕ} (x : List Row) (hr : r < h.length) :
    readRef (h ++ [x]) r = readRef h r := by
  unfold readRef
  rw [get?_append_lt hr]

theorem length_writeRef (h : Heap) (r : ℕ) (t : List Row) :
    (writeRef h r t).length = h.length :=
  List.length_set h r t

/-! ## Claims -/

/-- C2: for fixed read-only reference data, `standardize_data` is a
deterministic pure function of the input snapshot: running it on two
identical input tables yields identical output tables (there is no hidden
state, clock, or randomness anywhere in the pipeline). -/
theorem C2_pipeline_deterministic : ∀ (refs : RefData) (df₁ df₂ : List Row),
    df₁ = df₂ → standardize_data refs df₁ = standardize_data refs df₂ := by
  intro refs df₁ df₂ h
  rw [h]

theorem C2_witness : standardize_data trivRefs exC2 = standardize_data trivRefs exC2 :=
  C2_pipeline_deterministic trivRefs exC2 exC2 rfl

/-- C1 counterexample: the claim rounds the percentage (ratio × 100) to 3
decimals; the source rounds the raw ratio to 3 decimals and then scales by
100.  On a series whose week-over-week rolling-sum ratio is exactly 0.1234
the source produces 12.3 while the claim's formula produces 12.34. -/
theorem C1_counterexample :
    ((inject_weekly_growth exC1).getD 12 default).weekly_pct_growth_cases =
      some (⟨123, 10⟩ : Q) ∧
    specGrowthValue 7 (locSeries exC1 "A" (fun x => x.new_cases)) 12 =
      some (⟨617, 50⟩ : Q) ∧
    (⟨123, 10⟩ : Q) ≠ (⟨617, 50⟩ : Q) :=
  ⟨by decide, by decide, by decide⟩

/-- C1 (amended): for every location and both windows (7 and 14 days), the
pct-growth cell equals the percentage change of the rolling sum of
`new_cases`/`new_deaths` versus that rolling sum `window` positions
earlier, *rounded to 3 decimals as a raw ratio and then multiplied by
100*, with ±infinity (zero baseline) and missing values becoming null. -/
theorem C1_growth_is_scaled_rounded_ratio : ∀ (t : List Row) (i : ℕ) (r₁ : Row),
    ((inject_weekly_growth t).get? i = some r₁ →
      ∃ r, t.get? i = some r ∧
        r₁.weekly_pct_growth_cases =
          amendedGrowthValue 7 (locSeries t r.location (fun x => x.new_cases))
            (locPos t i r.location) ∧
        r₁.weekly_pct_growth_deaths =
          amendedGrowthValue 7 (locSeries t r.location (fun x => x.new_deaths))
            (locPos t i r.location)) ∧
    ((inject_biweekly_growth t).get? i = some r₁ →
      ∃ r, t.get? i = some r ∧
        r₁.biweekly_pct_growth_cases =
          amendedGrowthValue 14 (locSeries t r.location (fun x => x.new_cases))
            (locPos t i r.location) ∧
        r₁.biweekly_pct_growth_deaths =
          amendedGrowthValue 14 (locSeries t r.location (fun x => x.new_deaths))
            (locPos t i r.location)) := by
  intro t i r₁
  constructor
  · intro h
    rw [inject_weekly_growth, get?_mapIdxQ] at h
    cases ht : t.get? i with
    | none => rw [ht] at h; simp at h
    | some r =>
      rw [ht, Option.map_some'] at h
      injection h with h
      subst h
      exact ⟨r, rfl, rfl, rfl⟩
  · intro h
    rw [inject_biweekly_growth, get?_mapIdxQ] at h
    cases ht : t.get? i with
    | none => rw [ht] at h; simp at h
    | some r =>
      rw [ht, Option.map_some'] at h
      injection h with h
      subst h
      exact ⟨r, rfl, rfl, rfl⟩

theorem C1_witness :
    (∃ r, exC1.get? 12 = some r ∧
      ((inject_weekly_growth exC1).getD 12 default).weekly_pct_growth_cases =
        amendedGrowthValue 7 (locSeries exC1 r.location (fun x => x.new_cases))
          (locPos exC1 12 r.location) ∧
      ((inject_weekly_growth exC1).getD 12 default).weekly_pct_growth_deaths =
        amendedGrowthValue 7 (locSeries exC1 r.location (fun x => x.new_deaths))
          (locPos exC1 12 r.location)) ∧
    (∃ r, exC1.get? 12 = some r ∧
      ((inject_biweekly_growth exC1).getD 12 default).biweekly_pct_growth_cases =
        amendedGrowthValue 14 (locSeries exC1 r.location (fun x => x.new_cases))
          (locPos exC1 12 r.location) ∧
      ((inject_biweekly_growth exC1).getD 12 default).biweekly_pct_growth_deaths =
        amendedGrowthValue 14 (locSeries exC1 r.location (fun x => x.new_deaths))
          (locPos exC1 12 r.location)) :=
  ⟨(C1_growth_is_scaled_rounded_ratio exC1 12
      ((inject_weekly_growth exC1).getD 12 default)).1 (by decide),
   (C1_growth_is_scaled_rounded_ratio exC1 12
      ((inject_biweekly_growth exC1).getD 12 default)).2 (by decide)⟩

/-- C3 counterexample: on a group with no positive `new_cases` ever the
source returns early and skips the deaths half entirely, even though the
deaths suppression premises hold (`exC3b` differs from `exC3` only in
`new_cases`, carries the identical deaths series, and does get its deaths
suppressed).  The claim's "the suppression rule is still applied to the
other metric" is therefore false. -/
theorem C3_counterexample :
    hide_recent_zeros exC3 = exC3 ∧
    (hide_recent_zeros exC3b).map (fun r => r.new_deaths) =
      [some 20, some 20, none, none] ∧
    exC3.map (fun r => r.new_deaths) = exC3b.map (fun r => r.new_deaths) :=
  ⟨by decide, by decide, by decide⟩

/-- C3 (amended): a location with no positive `new_cases` ever is returned
entirely unmodified — the early return also skips the deaths rule; a
location with no positive `new_deaths` ever keeps its `new_deaths` column
unmodified (while the cases rule still runs). -/
theorem C3_no_positive_edge_cases : ∀ t : List Row,
    ((∀ r ∈ t, posCell r.new_cases = false) → hide_recent_zeros t = t) ∧
    ((∀ r ∈ t, posCell r.new_deaths = false) →
      (hide_recent_zeros t).map (fun r => r.new_deaths) =
        t.map (fun r => r.new_deaths)) := by
  intro t
  constructor
  · intro h
    have hfilter : t.filter (fun r => posCell r.new_cases) = [] :=
      List.filter_eq_nil_iff.mpr (fun r hr => by simp [h r hr])
    cases hm : maxDate? (t.map (fun r => r.date)) with
    | none => simp [hide_recent_zeros, hm]
    | some lrd =>
      simp only [hide_recent_zeros, hm, hfilter, List.map_nil]
      rfl
  · intro h
    cases hm : maxDate? (t.map (fun r => r.date)) with
    | none => simp [hide_recent_zeros, hm]
    | some lrd =>
      cases hc : maxDate? ((t.filter (fun r => posCell r.new_cases)).map
          (fun r => r.date)) with
      | none => simp [hide_recent_zeros, hm, hc]
      | some lpc =>
        have hp1 : ∀ r ∈ casesSuppressionStep lrd lpc t, posCell r.new_deaths = false :=
          posDeaths_casesStep lrd lpc t h
        have hfd : (casesSuppressionStep lrd lpc t).filter
            (fun r => posCell r.new_deaths) = [] :=
          List.filter_eq_nil_iff.mpr (fun r hr => by simp [hp1 r hr])
        simp only [hide_recent_zeros, hm, hc, hfd]
        simpa [maxDate?] using deaths_col_casesStep lrd lpc t

theorem C3_witness :
    hide_recent_zeros exC3 = exC3 ∧
    (hide_recent_zeros exC3c).map (fun r => r.new_deaths) =
      exC3c.map (fun r => r.new_deaths) :=
  ⟨(C3_no_positive_edge_cases exC3).1 (by decide),
   (C3_no_positive_edge_cases exC3c).2 (by decide)⟩

/-- C4: in both the weekly and the biweekly growth stage, a null daily
value forces the rolling-sum output cell of the same row to null (for
cases and deaths independently), regardless of how many non-null values
the window holds. -/
theorem C4_null_daily_forces_null_rolling : ∀ (t : List Row) (r : Row),
    (r ∈ inject_weekly_growth t →
      (r.new_cases = none → r.weekly_cases = none) ∧
      (r.new_deaths = none → r.weekly_deaths = none)) ∧
    (r ∈ inject_biweekly_growth t →
      (r.new_cases = none → r.biweekly_cases = none) ∧
      (r.new_deaths = none → r.biweekly_deaths = none)) := by
  intro t r
  constructor
  · intro hm
    obtain ⟨i, r₀, hi, rfl⟩ := mem_mapIdxQ hm
    constructor
    · intro hc
      have hc₀ : r₀.new_cases = none := hc
      simp [growthCells, hc₀]
    · intro hd
      have hd₀ : r₀.new_deaths = none := hd
      simp [growthCells, hd₀]
  · intro hm
    obtain ⟨i, r₀, hi, rfl⟩ := mem_mapIdxQ hm
    constructor
    · intro hc
      have hc₀ : r₀.new_cases = none := hc
      simp [growthCells, hc₀]
    · intro hd
      have hd₀ : r₀.new_deaths = none := hd
      simp [growthCells, hd₀]

theorem C4_witness :
    (rowC4.new_cases = none ∧ rowC4.weekly_cases = none) ∧ rowC4b.biweekly_cases = none :=
  ⟨⟨by decide, ((C4_null_daily_forces_null_rolling exC4 rowC4).1 (by decide)).1 (by decide)⟩,
   ((C4_null_daily_forces_null_rolling exC4 rowC4b).2 (by decide)).1 (by decide)⟩

/-- C5: the doubling-days transform yields null exactly when the percent
change is null or zero (an explicit zero guard, the `ln(1) = 0` division is
never taken), and otherwise `round(periods * log 2 / log (1 + pct), 2)`. -/
theorem C5_doubling_days_null_iff : ∀ (rlog : Q → Q) (pct : Option Q) (periods : Q),
    (pct_change_to_doubling_days rlog pct periods = none ↔
      pct = none ∨ ∃ p, pct = some p ∧ p.isZero = true) ∧
    (∀ p, pct = some p → p.isZero = false →
      pct_change_to_doubling_days rlog pct periods =
        some (round2 (periods * rlog 2 / rlog (1 + p)))) := by
  intro rlog pct periods
  constructor
  · cases pct with
    | none => simp [pct_change_to_doubling_days]
    | some p =>
      cases hp : p.isZero with
      | true => simp [pct_change_to_doubling_days, hp]
      | false => simp [pct_change_to_doubling_days, hp]
  · intro p hp hz
    subst hp
    simp [pct_change_to_doubling_days, hz]

theorem C5_witness : pct_change_to_doubling_days (fun q => q) (some 2) 3 = some 2 :=
  ((C5_doubling_days_null_iff (fun q => q) (some 2) 3).2 2 rfl (by decide)).trans (by decide)

/-- C6: per location and days-since spec, if no record ever meets the
threshold every cell of the column is null; otherwise (for a date-sorted
group) each row's value is the day difference between the row's date and
the first date on which the threshold was met, nulled for negative
differences exactly when `positive_only` is set. -/
theorem C6_days_since_threshold : ∀ (g : List (Date × Option Q)) (threshold : Q) (po : Bool),
    ((∀ x ∈ g, thrMet threshold x.2 = false) →
      _days_since g threshold po = g.map (fun _ => none)) ∧
    (List.Pairwise (fun a b : Date × Option Q => a.1.toDayNumber ≤ b.1.toDayNumber) g →
      ∀ d : Date,
        (∃ x ∈ g, x.1 = d ∧ thrMet threshold x.2 = true) →
        (∀ x ∈ g, thrMet threshold x.2 = true → d.toDayNumber ≤ x.1.toDayNumber) →
        ∀ k x, g.get? k = some x →
          (_days_since g threshold po).get? k =
            some (if po = true ∧ x.1.diffDays d < 0 then none
                  else some (x.1.diffDays d))) := by
  intro g threshold po
  constructor
  · intro h
    have hf : g.find? (fun x => thrMet threshold x.2) = none :=
      List.find?_eq_none.mpr (fun x hx => by simp [h x hx])
    simp [_days_since, _get_date_of_threshold, hf]
  · intro hs d hex hmin k xk hk
    obtain ⟨x, hx, hxd, hxp⟩ := hex
    have hsome : (g.find? (fun y => thrMet threshold y.2)).isSome := by
      rw [List.find?_isSome]
      exact ⟨x, hx, hxp⟩
    obtain ⟨x0, hf⟩ := Option.isSome_iff_exists.mp hsome
    have hx0p : thrMet threshold x0.2 = true := by
      have hp := List.find?_some hf
      exact hp
    have hx0m : x0 ∈ g := List.mem_of_find?_eq_some hf
    have h1 : d.toDayNumber ≤ x0.1.toDayNumber := hmin x0 hx0m hx0p
    have h2 : x0.1.toDayNumber ≤ x.1.toDayNumber := find?_first_date_min hs hf x hx hxp
    have hdn : x0.1.toDayNumber = d.toDayNumber := by
      rw [hxd] at h2
      exact le_antisymm h2 h1
    have hgd : _get_date_of_threshold g threshold = some x0.1 := by
      rw [_get_date_of_threshold, hf, Option.map_some']
    simp only [_days_since, hgd]
    rw [get?_listMap, hk, Option.map_some']
    congr 1
    simp only [_date_diff, Date.diffDays, hdn]

theorem C6_witness :
    (_days_since gC6 100 false).get? 0 = some (some (-1)) ∧
    _days_since gC6b 100 false = gC6b.map (fun _ => none) := by
  constructor
  · have h := (C6_days_since_threshold gC6 100 false).2 (by decide) (jan 2)
      ⟨(jan 2, some 150), by decide, by decide, by decide⟩ (by decide)
      0 (jan 1, some 50) (by decide)
    exact h.trans (by decide)
  · exact (C6_days_since_threshold gC6b 100 false).1 (by decide)

/-- C7: in the wide pivot export, the World column is moved to the front of
the (deduplicated) location columns whatever the input row order, and a
table without a World location makes the pivot reordering fail
(`list.index` raises), producing no pivot output. -/
theorem C7_world_first_or_error : ∀ t : List Row,
    ("World" ∈ t.map (fun r => r.location) →
      ∃ rest, worldFirstColumns t = some ("World" :: rest) ∧
        ("World" :: rest).Nodup ∧
        (∀ l, l ∈ "World" :: rest ↔ l ∈ t.map (fun r => r.location))) ∧
    ("World" ∉ t.map (fun r => r.location) → worldFirstColumns t = none) := by
  intro t
  have hmem : ∀ l, l ∈ pivotLocations t ↔ l ∈ t.map (fun r => r.location) := by
    intro l
    rw [pivotLocations, mem_sortBy, List.mem_dedup]
  have hnd : (pivotLocations t).Nodup := nodup_sortBy _ (List.nodup_dedup _)
  constructor
  · intro hw
    have hw' : "World" ∈ pivotLocations t := (hmem _).mpr hw
    refine ⟨(pivotLocations t).erase "World", ?_, ?_, ?_⟩
    · simp only [worldFirstColumns]
      rw [if_pos hw']
    · refine List.nodup_cons.mpr ⟨?_, hnd.erase _⟩
      rw [hnd.mem_erase_iff]
      simp
    · intro l
      by_cases hl : l = "World"
      · subst hl
        simp [hw]
      · simp only [List.mem_cons, hnd.mem_erase_iff, hmem]
        constructor
        · rintro (rfl | ⟨-, hm⟩)
          · exact hw
          · exact hm
        · intro hm
          exact Or.inr ⟨hl, hm⟩
  · intro hw
    simp only [worldFirstColumns]
    rw [if_neg (fun hc => hw ((hmem _).mp hc))]

theorem C7_witness :
    (∃ rest, worldFirstColumns exC7 = some ("World" :: rest) ∧
      ("World" :: rest).Nodup ∧
      (∀ l, l ∈ "World" :: rest ↔ l ∈ exC7.map (fun r => r.location))) ∧
    worldFirstColumns exC7b = none :=
  ⟨(C7_world_first_or_error exC7).1 (by decide),
   (C7_world_first_or_error exC7b).2 (by decide)⟩

/-- All later stages preserve the two total columns, so zero-free totals
survive them: per-million normalizer, -/
theorem zf_inject_per_million (pop : String → Option Q) {t : List Row}
    (h : ∀ r ∈ t, ZeroFreeTotals r) :
    ∀ r ∈ inject_per_million pop t, ZeroFreeTotals r := by
  unfold inject_per_million
  refine zf_mem_map ?_ h
  intro r
  exact ⟨rfl, rfl⟩

/-- rolling averages, -/
theorem zf_inject_rolling_avg {t : List Row}
    (h : ∀ r ∈ t, ZeroFreeTotals r) :
    ∀ r ∈ inject_rolling_avg t, ZeroFreeTotals r := by
  simp only [inject_rolling_avg]
  refine zf_mem_mapIdxQ ?_ (zf_mem_sortBy _ h)
  intro i r
  exact ⟨rfl, rfl⟩

/-- case fatality ratio, -/
theorem zf_inject_cfr {t : List Row}
    (h : ∀ r ∈ t, ZeroFreeTotals r) :
    ∀ r ∈ inject_cfr t, ZeroFreeTotals r := by
  unfold inject_cfr
  refine zf_mem_map ?_ h
  intro r
  exact ⟨rfl, rfl⟩

/-- days-since columns, -/
theorem zf_inject_days_since {t : List Row}
    (h : ∀ r ∈ t, ZeroFreeTotals r) :
    ∀ r ∈ inject_days_since t, ZeroFreeTotals r := by
  unfold inject_days_since injectDaysSinceCol
  refine zf_mem_mapIdxQ ?_ (zf_mem_mapIdxQ ?_ (zf_mem_mapIdxQ ?_ (zf_mem_mapIdxQ ?_ h))) <;>
  · intro i r
    exact ⟨rfl, rfl⟩

/-- exemplar flags, -/
theorem zf_inject_exemplars (refs : RefData) {t : List Row}
    (h : ∀ r ∈ t, ZeroFreeTotals r) :
    ∀ r ∈ inject_exemplars refs t, ZeroFreeTotals r := by
  unfold inject_exemplars
  refine zf_mem_map ?_ h
  intro r
  exact ⟨rfl, rfl⟩

/-- and the final sort. -/
theorem zf_sortLocationDate {t : List Row}
    (h : ∀ r ∈ t, ZeroFreeTotals r) :
    ∀ r ∈ sortLocationDate t, ZeroFreeTotals r := by
  unfold sortLocationDate
  exact zf_mem_sortBy _ h

/-- C8: the doubling-days stage rewrites its source columns in the shared
table: every `total_cases`/`total_deaths` cell holding exactly 0 becomes
null there (other raw columns untouched), and since every later stage
preserves the two total columns, no row of the full pipeline output ever
carries a total value of exactly 0. -/
theorem C8_zero_totals_nulled : ∀ (refs : RefData) (t : List Row),
    (∀ i r r₁, t.get? i = some r →
      (inject_doubling_days refs.rlog t).get? i = some r₁ →
      r₁.total_cases = nullIfZero r.total_cases ∧
      r₁.total_deaths = nullIfZero r.total_deaths ∧
      r₁.date = r.date ∧ r₁.location = r.location) ∧
    (∀ r ∈ standardize_data refs t, ZeroFreeTotals r) := by
  intro refs t
  constructor
  · intro i r r₁ hr hr₁
    exact doubling_totals refs.rlog t i hr hr₁
  · intro r hm
    have hm' : r ∈ sortLocationDate (inject_exemplars refs (inject_days_since
        (inject_cfr (inject_rolling_avg (inject_per_million refs.population
          (inject_doubling_days refs.rlog (inject_biweekly_growth
            (inject_weekly_growth (inject_owid_aggregates refs
              (discard_rows (select_raw_columns t))))))))))) := hm
    exact zf_sortLocationDate
      (zf_inject_exemplars refs
        (zf_inject_days_since
          (zf_inject_cfr
            (zf_inject_rolling_avg
              (zf_inject_per_million refs.population
                (zf_inject_doubling_days refs.rlog
                  (inject_biweekly_growth (inject_weekly_growth
                    (inject_owid_aggregates refs
                      (discard_rows (select_raw_columns t))))))))))) r hm'

set_option maxHeartbeats 40000000 in
theorem C8_witness :
    (((inject_doubling_days trivRefs.rlog exC8).getD 0 default).total_cases =
      nullIfZero ((exC8.getD 0 default).total_cases)) ∧
    ZeroFreeTotals rowC8 :=
  ⟨((C8_zero_totals_nulled trivRefs exC8).1 0 (exC8.getD 0 default)
      ((inject_doubling_days trivRefs.rlog exC8).getD 0 default)
      (by decide) (by decide)).1,
   (C8_zero_totals_nulled trivRefs exC8).2 rowC8 (by decide)⟩

/-- C9 counterexample: `standardize_data` does *not* mutate the caller's
table.  Its opening `df[[...]]` column selection copies, so `discard_rows`
writes into the copy: after the full pipeline runs on a heap holding one
table with a negative daily delta, that table is unchanged — even though
the negative-delta nulling would have changed it had it been written
in place (second conjunct). -/
theorem C9_counterexample :
    readRef (standardize_data_heap trivRefs [exC9] 0).1 0 = exC9 ∧
    dropNegatives exC9 ≠ exC9 :=
  ⟨by decide, by decide⟩

/-- C9 (amended): `discard_rows` itself mutates its argument object in
place — after it runs, the object passed to it holds the negative-delta
nulling and the manual correction nulling — but `standardize_data` hands
it a column-selection copy (`df[[...]]` copies), so the caller's input
table is unchanged after the pipeline runs. -/
theorem C9_discard_mutates_but_pipeline_copies :
    ∀ (refs : RefData) (h : Heap) (r : ℕ), r < h.length →
    readRef (discard_rows_heap h r).1 r =
      LARGE_DATA_CORRECTIONS.foldl (fun acc c => applyCorrection c acc)
        (dropNegatives (readRef h r)) ∧
    readRef (standardize_data_heap refs h r).1 r = readRef h r := by
  intro refs h r hr
  constructor
  · unfold discard_rows_heap allocRef
    rw [readRef_append_lt _ (by rw [length_writeRef, length_writeRef]; exact hr),
      readRef_writeRef_self _ (by rw [length_writeRef]; exact hr),
      readRef_writeRef_self _ hr]
  · unfold standardize_data_heap discard_rows_heap allocRef
    dsimp only
    rw [readRef_append_lt _ (by simp [length_writeRef]; omega),
      readRef_append_lt _ (by simp [length_writeRef]; omega),
      readRef_writeRef_ne _ (by omega), readRef_writeRef_ne _ (by omega),
      readRef_append_lt _ hr]

theorem C9_witness :
    readRef (discard_rows_heap [exC9] 0).1 0 =
      LARGE_DATA_CORRECTIONS.foldl (fun acc c => applyCorrection c acc)
        (dropNegatives (readRef [exC9] 0)) ∧
    readRef (standardize_data_heap trivRefs [exC9] 0).1 0 = readRef [exC9] 0 :=
  C9_discard_mutates_but_pipeline_copies trivRefs [exC9] 0 (by decide)

/-- C10: in aggregate synthesis, nulls are summed as zeros: whenever at
least one location qualifies under the include/exclude filter on a date,
the synthetic row for that date exists, and each of its four metric cells
is `0` (not null) if every qualifying value for that metric on that date
is null. -/
theorem C10_aggregate_sums_nulls_as_zero :
    ∀ (t : List Row) (name : String) (inc exc : Option (List String)) (d : Date),
    (∃ r ∈ aggFilter inc exc t, r.date = d) →
    ∃ r ∈ _sum_aggregate t name inc exc, r.date = d ∧ r.location = name ∧
      ((∀ x ∈ aggFilter inc exc t, x.date = d → x.new_cases = none) → r.new_cases = some 0) ∧
      ((∀ x ∈ aggFilter inc exc t, x.date = d → x.new_deaths = none) → r.new_deaths = some 0) ∧
      ((∀ x ∈ aggFilter inc exc t, x.date = d → x.total_cases = none) → r.total_cases = some 0) ∧
      ((∀ x ∈ aggFilter inc exc t, x.date = d → x.total_deaths = none) → r.total_deaths = some 0) := by
  intro t name inc exc d hq
  obtain ⟨x, hx, hxd⟩ := hq
  have hd : d ∈ groupDates (aggFilter inc exc t) := by
    rw [groupDates, mem_sortBy]
    exact List.mem_dedup.mpr (List.mem_map.mpr ⟨x, hx, hxd⟩)
  refine ⟨_, List.mem_map.mpr ⟨d, hd, rfl⟩, rfl, rfl, ?_, ?_, ?_, ?_⟩ <;>
  · intro hall
    simp only [Option.some.injEq]
    apply sumOpt_all_none
    intro o ho
    obtain ⟨r, hr, rfl⟩ := List.mem_map.mp ho
    have hm := List.mem_filter.mp hr
    have hrd : r.date = d := by simpa using hm.2
    exact hall r hm.1 hrd

theorem C10_witness :
    ∃ r ∈ _sum_aggregate exC10 "X" none none, r.date = jan 1 ∧ r.location = "X" ∧
      ((∀ x ∈ aggFilter none none exC10, x.date = jan 1 → x.new_cases = none) → r.new_cases = some 0) ∧
      ((∀ x ∈ aggFilter none none exC10, x.date = jan 1 → x.new_deaths = none) → r.new_deaths = some 0) ∧
      ((∀ x ∈ aggFilter none none exC10, x.date = jan 1 → x.total_cases = none) → r.total_cases = some 0) ∧
      ((∀ x ∈ aggFilter none none exC10, x.date = jan 1 → x.total_deaths = none) → r.total_deaths = some 0) :=
  C10_aggregate_sums_nulls_as_zero exC10 "X" none none (jan 1)
    ⟨rawRow (jan 1) "A" none (some 3) (some 7) none, by decide, by decide⟩

end Jhu
